import Mathlib

/-!
Shallow embedding of the Chain-of-RAG retrieval controller of the StockAgent
repository (`src/agent/chain_of_rag.py` and `src/agent/collection_router.py`).

External capabilities (the LLM chat endpoint, the embedding model and the
vector store) are modelled as an explicit environment of pure functions; the
chat endpoint is indexed by a call counter so that distinct calls may receive
distinct replies.  Every capability invocation is additionally recorded in an
event trace, so that theorems can count how often each capability is used.

Floating point payloads of the source (similarity scores, embedding vector
components) are carried as opaque integer payloads here: no modelled claim
computes with them.  The JSON metadata mapping is modelled as an association
list of strings, of which only the "wider_text" key is ever consulted.
-/

/-- A retrieved passage, mirroring `RetrievalResult` of `src/vector_db`
(fields `text`, `embedding`, `reference`, `score`, `metadata`). -/
structure RetrievalResult where
  text : String
  embedding : List Int
  reference : String
  score : Int
  metadata : List (String × String)
deriving DecidableEq, Repr

/-- `ChatResponse` of the llm layer: generated text plus token usage. -/
structure ChatResponse where
  content : String
  total_tokens : Nat
deriving DecidableEq, Repr

/-- `CollectionInfo` of the vector-db layer: a partition name and its
description. -/
structure CollectionInfo where
  collection_name : String
  description : String
deriving DecidableEq, Repr

/-- One capability invocation, recorded for call-counting theorems:
an `embed_query` call, a `search_data` call, an `llm.chat` call, or a
`list_collections` enumeration. -/
inductive Event where
  | embedQ (query : String)
  | searchD (collection : String) (vector : List Int) (queryText : String)
  | chatC (prompt : String)
  | listC
deriving DecidableEq, Repr

/-- The environment of external capabilities injected into the agent.
`chatFn` takes the index of the chat call (0-based, per operation) and the
prompt; `collections` is the stable result of `list_collections(dim)`;
`literalEvalNames` / `literalEvalInts` model `llm.literal_eval` applied to a
reply expected to be a list of strings resp. integers (the llm base module
is not part of the analysed sources; the spec says only "parse the reply as
a literal list", so the parse itself is an oracle of the environment). -/
structure Env where
  collections : List CollectionInfo
  default_collection : String
  chatFn : Nat → String → ChatResponse
  embedFn : String → List Int
  searchFn : String → List Int → String → List RetrievalResult
  literalEvalNames : String → List String
  literalEvalInts : String → List Int

/-- The boolean configuration of `ChainOfRAG.__init__`. -/
structure Config where
  max_iter : Nat
  early_stopping : Bool
  route_collection : Bool
  text_window_splitter : Bool

/-- Modelled from the spec: `remove_think` of the missing llm base module.
The spec speaks only of "the reply" of a generation call and never of any
think-block stripping, so the cleaned reply is the reply itself. -/
def remove_think (s : String) : String := s

/-- The deduplication key of the spec's data model: (reference, text). -/
def rrKey (r : RetrievalResult) : String × String := (r.reference, r.text)

/-- Helper for `deduplicate_results`: drop every entry whose key already
occurred, scanning left to right with the set `seen` of keys kept so far. -/
def dedupGo (seen : List (String × String)) : List RetrievalResult → List RetrievalResult
  | [] => []
  | r :: rest =>
      if rrKey r ∈ seen then dedupGo seen rest
      else r :: dedupGo (rrKey r :: seen) rest

/-- Modelled from the spec: `deduplicate_results` of the missing
`src/vector_db/base.py` ("Deduplicate by (reference, text); on collision,
keep the first occurrence encountered in the concatenation order"). -/
def deduplicate_results (results : List RetrievalResult) : List RetrievalResult :=
  dedupGo [] results

/-- Whether the character list `sub` is a prefix of `l` (on characters). -/
def charsLeadOf : List Char → List Char → Bool
  | [], _ => true
  | _ :: _, [] => false
  | a :: as, b :: bs => a == b && charsLeadOf as bs

/-- Whether `sub` occurs as a contiguous sublist of `l`. -/
def charsHold (sub : List Char) : List Char → Bool
  | [] => charsLeadOf sub []
  | b :: bs => charsLeadOf sub (b :: bs) || charsHold sub bs

/-- Python's substring test `sub in s`. -/
def strContains (s sub : String) : Bool := charsHold sub.data s.data

/-- Python's `str.strip()`: remove leading and trailing whitespace. -/
def pyStrip (s : String) : String :=
  ⟨((s.data.dropWhile Char.isWhitespace).reverse.dropWhile Char.isWhitespace).reverse⟩

/-- Python's `str.lower()`: case-fold every character. -/
def pyLower (s : String) : String := ⟨s.data.map Char.toLower⟩

/-- Python's `lst[i]` on an `int` index: a negative index counts from the
end; an index out of range (below `-len` or at/above `len`) raises, here
`none`. -/
def pyIndex (l : List α) (i : Int) : Option α :=
  let j : Int := if i < 0 then i + l.length else i
  if 0 ≤ j ∧ j < (l.length : Int) then l.get? j.toNat else none

/-- The list comprehension of `_get_supported_docs` (chain_of_rag.py lines
194-198): keep each index `i` with `int(i) < len(retrieved_results)` and map
it through Python indexing; an `IndexError` (possible for `i < -len`) aborts
the whole comprehension (`none`). -/
def selectSupported (results : List RetrievalResult) : List Int → Option (List RetrievalResult)
  | [] => some []
  | i :: rest =>
      if i < (results.length : Int) then
        match pyIndex results i with
        | none => none
        | some r => (selectSupported results rest).map (fun tail => r :: tail)
      else selectSupported results rest

/-- The sentinel substring tested by `_get_supported_docs` (line 180). -/
def noRelevantInfo : String := "No relevant information found"

/-- Lookup in the metadata association list (`"wider_text" in result.metadata`
and `result.metadata["wider_text"]`). -/
def lookupMeta (m : List (String × String)) (k : String) : Option String :=
  (m.find? (fun p => p.1 == k)).map (fun p => p.2)

/-- `ChainOfRAG._format_retrieved_results`: number each document, preferring
the `wider_text` metadata field when the text-window splitter is enabled. -/
def format_retrieved_results (cfg : Config) (results : List RetrievalResult) : String :=
  String.intercalate "\n" <| (results.enum.map (fun p =>
    let text :=
      match (if cfg.text_window_splitter then lookupMeta p.2.metadata "wider_text" else none) with
      | some w => w
      | none => p.2.text
    "<Document " ++ toString p.1 ++ ">\n" ++ text ++ "\n<\\Document " ++ toString p.1 ++ ">"))

/-- `FOLLOWUP_QUERY_PROMPT.format(query=..., intermediate_context=...)`. -/
def followupPrompt (query : String) (contexts : List String) : String :=
  "你正在使用一个搜索工具通过迭代搜索数据库来回答主要问题。根据以下中间查询和答案，生成一个新的简单的后续问题，以帮助回答主要问题。当先前的答案没有帮助时，你可以重新表述或分解主要问题。仅提出简单后续问题，因为搜索工具可能无法理解复杂问题。\n\n## 先前的中间查询和答案\n"
    ++ String.intercalate "\n" contexts
    ++ "\n\n## 需要回答的主要问题\n" ++ query
    ++ "\n\n仅回复一个能帮助回答主要问题的简单后续问题，不要解释自己或输出其他内容。\n"

/-- `INTERMEDIATE_ANSWER_PROMPT.format(retrieved_documents=..., sub_query=...)`. -/
def intermediatePrompt (docs subQuery : String) : String :=
  "给定以下文档，为查询生成适当的答案。不要编造任何信息，仅使用提供的文档来生成答案。如果文档不包含有用信息，请回复“未找到相关信息”。\n\n## 文档\n"
    ++ docs ++ "\n\n## 查询\n" ++ subQuery
    ++ "\n\n仅回复简洁的答案，不要解释自己或输出其他内容。\n"

/-- `REFLECTION_PROMPT.format(intermediate_context=..., query=...)`. -/
def reflectPrompt (query : String) (contexts : List String) : String :=
  "给定以下中间查询和答案，判断是否有足够信息回答主要问题。如果你认为有足够信息，请回复\"是\"，否则回复\"否\"。\n\n## 中间查询和答案\n"
    ++ String.intercalate "\n" contexts
    ++ "\n\n## 主要问题\n" ++ query
    ++ "\n\n仅回复\"是\"或\"否\"，不要解释自己或输出其他内容。\n"

/-- `GET_SUPPORTED_DOCS_PROMPT.format(retrieved_documents=..., query=..., answer=...)`. -/
def supportedDocsPrompt (docs query answer : String) : String :=
  "给定以下文档，选择支持问答对的文档。\n\n## 文档\n" ++ docs
    ++ "\n\n## 问答对\n### 问题\n" ++ query ++ "\n### 答案\n" ++ answer
    ++ "\n\n回复一个包含选中文档索引的Python列表。\n"

/-- Rendering of the list of collection-info dicts interpolated into
`COLLECTION_ROUTE_PROMPT` (Python `repr` of a list of dicts). -/
def collectionInfoRepr (infos : List CollectionInfo) : String :=
  "[" ++ String.intercalate ", " (infos.map (fun ci =>
    "\x7b'collection_name': '" ++ ci.collection_name
      ++ "', 'collection_description': '" ++ ci.description ++ "'\x7d")) ++ "]"

/-- `COLLECTION_ROUTE_PROMPT.format(question=..., collection_info=...)`. -/
def routePrompt (query : String) (infos : List CollectionInfo) : String :=
  "\n我为你提供集合名称(collection_name)和对应的集合描述(collection_description)。请选择与问题可能相关的集合名称，并返回一个str类型的python列表。如果没有任何集合与问题相关，你可以返回一个空列表。\n\n\"问题\": "
    ++ query ++ "\n\"集合信息\": " ++ collectionInfoRepr infos
    ++ "\n\n在返回时，你只能返回一个str类型的python列表，不能包含任何其他额外内容。你选择的集合名称列表是：\n"

/-- Python's `list(set(xs))` applied to the router's name list.  The real
iteration order of a Python set is unspecified; since no modelled claim
depends on the order of the router's multi-collection selection, it is
modelled as first-occurrence deduplication. -/
def pySetList (xs : List String) : List String := xs.eraseDups

/-- Output of `CollectionRouter.invoke`: selected collection names, token
cost, recorded capability events, and the chat-call counter afterwards. -/
structure RouteOut where
  selected : List String
  tokens : Nat
  events : List Event
  next : Nat
deriving Repr

/-- `CollectionRouter.invoke` (collection_router.py lines 42-98): re-enumerate
the collections, short-circuit on zero or one collection, otherwise issue one
routing chat call, parse the reply as a name list, overlay description-less
and default collections, and deduplicate. -/
def router_invoke (env : Env) (callIdx : Nat) (query : String) : RouteOut :=
  match env.collections with
  | [] => { selected := [], tokens := 0, events := [Event.listC], next := callIdx }
  | [ci] => { selected := [ci.collection_name], tokens := 0, events := [Event.listC], next := callIdx }
  | infos =>
      let prompt := routePrompt query infos
      let resp := env.chatFn callIdx prompt
      let selected0 := env.literalEvalNames resp.content
      let selected1 := infos.foldl (fun acc ci =>
        let acc1 := if ci.description = "" then acc ++ [ci.collection_name] else acc
        if env.default_collection = ci.collection_name then acc1 ++ [ci.collection_name] else acc1)
        selected0
      { selected := pySetList selected1, tokens := resp.total_tokens,
        events := [Event.listC, Event.chatC prompt], next := callIdx + 1 }

/-- The names computed once at `CollectionRouter.__init__` (`all_collections`);
the construction-time enumeration happens before any `retrieve` operation. -/
def all_collections (env : Env) : List String :=
  env.collections.map (fun ci => ci.collection_name)

/-- Output of `_retrieve_and_answer` (and of its post-routing core). -/
structure RAOut where
  answer : String
  results : List RetrievalResult
  tokens : Nat
  events : List Event
  next : Nat
deriving Repr

/-- The per-collection search loop of `_retrieve_and_answer` (chain_of_rag.py
lines 146-153): for each selected collection, embed the sub-query and search
that collection with the resulting vector, concatenating all results. -/
def searchLoop (env : Env) (query : String) : List String → List RetrievalResult × List Event
  | [] => ([], [])
  | c :: rest =>
      let v := env.embedFn query
      let rs := env.searchFn c v query
      let tail := searchLoop env query rest
      (rs ++ tail.1, Event.embedQ query :: Event.searchD c v query :: tail.2)

/-- The part of `_retrieve_and_answer` after collection selection
(chain_of_rag.py lines 146-170): fan-out search, deduplicate, and issue one
chat call producing the intermediate answer. -/
def retrieve_and_answer_core (env : Env) (cfg : Config) (callIdx : Nat) (query : String)
    (selected : List String) : RAOut :=
  let s := searchLoop env query selected
  let deduped := deduplicate_results s.1
  let prompt := intermediatePrompt (format_retrieved_results cfg deduped) query
  let resp := env.chatFn callIdx prompt
  { answer := remove_think resp.content, results := deduped,
    tokens := resp.total_tokens, events := s.2 ++ [Event.chatC prompt], next := callIdx + 1 }

/-- `ChainOfRAG._retrieve_and_answer` (chain_of_rag.py lines 136-170):
route (or take all collections when routing is disabled), then run the
search-and-answer core; the routing cost is added to the answer cost. -/
def retrieve_and_answer (env : Env) (cfg : Config) (callIdx : Nat) (query : String) : RAOut :=
  let r :=
    if cfg.route_collection then router_invoke env callIdx query
    else { selected := all_collections env, tokens := 0, events := [], next := callIdx }
  let core := retrieve_and_answer_core env cfg r.next query r.selected
  { core with tokens := r.tokens + core.tokens, events := r.events ++ core.events }

/-- Output of `_get_supported_docs`; `res = none` models an uncaught
`IndexError` from the index comprehension. -/
structure FilterOut where
  res : Option (List RetrievalResult × Nat)
  events : List Event
  next : Nat

/-- `ChainOfRAG._get_supported_docs` (chain_of_rag.py lines 172-200): skip
the filter chat call whenever the sentinel occurs in the intermediate answer
(Python `in`, a substring test); otherwise issue one chat call, parse its
reply as an integer list and keep the in-bound documents. -/
def get_supported_docs (env : Env) (callIdx : Nat) (results : List RetrievalResult)
    (query answer : String) : FilterOut :=
  if strContains answer noRelevantInfo then
    { res := some ([], 0), events := [], next := callIdx }
  else
    let prompt := supportedDocsPrompt (format_retrieved_results
      { max_iter := 0, early_stopping := false, route_collection := false,
        text_window_splitter := true } results) query answer
    let resp := env.chatFn callIdx prompt
    let indices := env.literalEvalInts resp.content
    { res := (selectSupported results indices).map (fun sel => (sel, resp.total_tokens)),
      events := [Event.chatC prompt], next := callIdx + 1 }

/-- Output of `_check_has_enough_info`. -/
structure CheckOut where
  hasEnough : Bool
  tokens : Nat
  events : List Event
  next : Nat

/-- `ChainOfRAG._check_has_enough_info` (chain_of_rag.py lines 202-220):
empty record list short-circuits to false at no cost; otherwise one chat
call whose cleaned reply must trim and lower-case to exactly "yes". -/
def check_has_enough_info (env : Env) (callIdx : Nat) (query : String)
    (contexts : List String) : CheckOut :=
  match contexts with
  | [] => { hasEnough := false, tokens := 0, events := [], next := callIdx }
  | _ :: _ =>
      let prompt := reflectPrompt query contexts
      let resp := env.chatFn callIdx prompt
      { hasEnough := pyLower (pyStrip (remove_think resp.content)) == "yes",
        tokens := resp.total_tokens, events := [Event.chatC prompt], next := callIdx + 1 }

/-- The intermediate record string appended each iteration
(chain_of_rag.py lines 255-258). -/
def mkRecord (idx : Nat) (query answer : String) : String :=
  "Intermediate query" ++ toString idx ++ ": " ++ query
    ++ "\nIntermediate answer" ++ toString idx ++ ": " ++ answer

/-- The loop state of `ChainOfRAG.retrieve`: the record list
(`intermediate_contexts`), the accumulated evidence pool
(`all_retrieved_results` before the final dedup), token usage, the chat-call
counter, the capability event trace, the number of fully executed
iterations, whether an exception aborted the operation, and whether early
stopping fired. -/
structure LoopState where
  contexts : List String
  pool : List RetrievalResult
  tokens : Nat
  callIdx : Nat
  events : List Event
  iters : Nat
  failed : Bool
  stopped : Bool

/-- The initial loop state of one `retrieve` operation. -/
def initState : LoopState :=
  { contexts := [], pool := [], tokens := 0, callIdx := 0, events := [],
    iters := 0, failed := false, stopped := false }

/-- One iteration of the `retrieve` loop body (chain_of_rag.py lines
244-271): follow-up query generation, retrieval and answering, evidence
filtering (whose failure aborts the operation), record append, cost
accumulation, and the optional early-stopping check. -/
def iterBody (env : Env) (cfg : Config) (query : String) (st : LoopState) : LoopState :=
  let p0 := followupPrompt query st.contexts
  let r0 := env.chatFn st.callIdx p0
  let followup := remove_think r0.content
  let e1 := st.events ++ [Event.chatC p0]
  let ra := retrieve_and_answer env cfg (st.callIdx + 1) followup
  let e2 := e1 ++ ra.events
  let fo := get_supported_docs env ra.next ra.results followup ra.answer
  let e3 := e2 ++ fo.events
  match fo.res with
  | none => { st with events := e3, callIdx := fo.next, failed := true }
  | some supported =>
      let st1 : LoopState :=
        { contexts := st.contexts ++ [mkRecord (st.contexts.length + 1) followup ra.answer],
          pool := st.pool ++ supported.1,
          tokens := st.tokens + r0.total_tokens + ra.tokens + supported.2,
          callIdx := fo.next, events := e3, iters := st.iters + 1,
          failed := false, stopped := st.stopped }
      if cfg.early_stopping then
        let ch := check_has_enough_info env st1.callIdx query st1.contexts
        { st1 with tokens := st1.tokens + ch.tokens, callIdx := ch.next,
                   events := st1.events ++ ch.events, stopped := ch.hasEnough }
      else st1

/-- The `for iter in range(max_iter)` loop of `retrieve`, stopping on an
uncaught exception or after an early-stop break. -/
def retrieveAux (env : Env) (cfg : Config) (query : String) : Nat → LoopState → LoopState
  | 0, st => st
  | fuel + 1, st =>
      if st.failed || st.stopped then st
      else retrieveAux env cfg query fuel (iterBody env cfg query st)

/-- The final loop state of `ChainOfRAG.retrieve` run with iteration bound
`maxIter` (the `max_iter` kwarg override, defaulting to the configured
value). -/
def retrieveRun (env : Env) (cfg : Config) (query : String) (maxIter : Nat) : LoopState :=
  retrieveAux env cfg query maxIter initState

/-- `ChainOfRAG.retrieve` (chain_of_rag.py lines 222-275): the returned
triple (deduplicated evidence, token usage, record list), or `none` when an
exception escaped the loop. -/
def retrieve (env : Env) (cfg : Config) (query : String) (maxIter : Nat) :
    Option (List RetrievalResult × Nat × List String) :=
  let fin := retrieveRun env cfg query maxIter
  if fin.failed then none
  else some (deduplicate_results fin.pool, fin.tokens, fin.contexts)

/-- Count of `embed_query` invocations in a trace. -/
def countEmbed (l : List Event) : Nat :=
  l.countP (fun e => match e with | Event.embedQ _ => true | _ => false)

/-- Count of `llm.chat` invocations in a trace. -/
def countChat (l : List Event) : Nat :=
  l.countP (fun e => match e with | Event.chatC _ => true | _ => false)

/-- Count of `list_collections` enumerations in a trace. -/
def countList (l : List Event) : Nat :=
  l.countP (fun e => match e with | Event.listC => true | _ => false)

/-! ### Helper lemmas about Python indexing -/

lemma pyIndex_nonneg (l : List α) (i : Int) (h0 : 0 ≤ i) :
    pyIndex l i = if i < (l.length : Int) then l.get? i.toNat else none := by
  simp only [pyIndex]
  rw [if_neg (by omega : ¬ i < 0)]
  by_cases hlt : i < (l.length : Int)
  · rw [if_pos ⟨h0, hlt⟩, if_pos hlt]
  · rw [if_neg (fun hc => hlt hc.2), if_neg hlt]

lemma pyIndex_neg (l : List α) (i : Int) (h1 : -(l.length : Int) ≤ i) (h2 : i < 0) :
    pyIndex l i = l.get? (i + (l.length : Int)).toNat := by
  simp only [pyIndex]
  rw [if_pos h2, if_pos ⟨by omega, by omega⟩]

/-! ### Concrete environments and configurations used as test inputs -/

/-- A neutral environment; individual scenarios override single fields. -/
def baseEnv : Env :=
  { collections := [], default_collection := "src",
    chatFn := fun _ _ => { content := "ok", total_tokens := 1 },
    embedFn := fun _ => [7], searchFn := fun _ _ _ => [],
    literalEvalNames := fun _ => [], literalEvalInts := fun _ => [] }

/-- The default configuration of `ChainOfRAG.__init__`. -/
def cfgRoute : Config :=
  { max_iter := 4, early_stopping := false, route_collection := true,
    text_window_splitter := true }

/-- A document with the given text, reference "r". -/
def mkDoc (t : String) : RetrievalResult :=
  { text := t, embedding := [], reference := "r", score := 0, metadata := [] }

/-- Five distinct documents, as in the spec's filter-bounds test. -/
def fiveDocs : List RetrievalResult :=
  [mkDoc "d0", mkDoc "d1", mkDoc "d2", mkDoc "d3", mkDoc "d4"]

/-- Environment with exactly two registered collections. -/
def envTwo : Env := { baseEnv with collections := [⟨"a", "da"⟩, ⟨"b", "db"⟩] }

/-- Environment with exactly one registered collection. -/
def envOne : Env := { baseEnv with collections := [⟨"only", "desc"⟩] }

/-- Environment with zero registered collections whose chat endpoint
always replies "42". -/
def envZero : Env := { baseEnv with chatFn := fun _ _ => { content := "42", total_tokens := 2 } }

/-! ### C6: single-collection shortcut of CollectionRouter.invoke -/

/-- C6: with exactly one registered collection, `CollectionRouter.invoke`
returns exactly that collection with cost 0 and issues no generation call
(the event trace holds only the `list_collections` enumeration and the
chat-call counter is unchanged). -/
theorem c6_single_collection_shortcut (env : Env) (callIdx : Nat) (query : String)
    (ci : CollectionInfo) (h : env.collections = [ci]) :
    router_invoke env callIdx query =
      { selected := [ci.collection_name], tokens := 0, events := [Event.listC],
        next := callIdx } := by
  unfold router_invoke
  rw [h]

theorem c6_single_collection_shortcut_witness :
    router_invoke envOne 3 "any query" =
      { selected := ["only"], tokens := 0, events := [Event.listC], next := 3 } :=
  c6_single_collection_shortcut envOne 3 "any query" ⟨"only", "desc"⟩ rfl

/-! ### C9 / C10: bounds behaviour of the evidence-filter index list -/

/-- C9 counterexample: the filter reply `[-99]` over five documents is a
list of integers, so the claim promises that every index ≥ 5 is dropped and
every surviving index is mapped to a document without an error; but `-99`
survives the bound check (`-99 < 5`) and Python indexing then raises an
uncaught IndexError (modelled as `none`), so no document list is produced
at all. -/
theorem c9_filter_bounds_counterexample :
    selectSupported fiveDocs [(-99 : Int)] = none ∧
    decide ((-99 : Int) < (fiveDocs.length : Int)) = true := by
  exact ⟨rfl, rfl⟩

/-- C9 (amended): for every evidence list and every parsed filter reply that
is a list of NON-NEGATIVE integers, each index ≥ evidence length is silently
dropped and every surviving index is mapped back to the RetrievalResult at
that position, with no error. -/
theorem c9_filter_bounds_nonneg (results : List RetrievalResult) (indices : List Int)
    (h : ∀ i ∈ indices, 0 ≤ i) :
    selectSupported results indices =
      some (indices.filterMap (fun i =>
        if i < (results.length : Int) then results.get? i.toNat else none)) := by
  induction indices with
  | nil => rfl
  | cons i rest ih =>
      have hi : 0 ≤ i := h i (List.mem_cons_self i rest)
      have hrest : ∀ j ∈ rest, 0 ≤ j := fun j hj => h j (List.mem_cons_of_mem i hj)
      by_cases hlt : i < (results.length : Int)
      · have hnat : i.toNat < results.length := by omega
        obtain ⟨r, hr⟩ : ∃ r, results.get? i.toNat = some r := by
          rw [List.get?_eq_get hnat]; exact ⟨_, rfl⟩
        unfold selectSupported
        rw [if_pos hlt, pyIndex_nonneg results i hi, if_pos hlt, hr, ih hrest]
        have hr' : results[i.toNat]? = some r := by
          rw [← List.get?_eq_getElem?]; exact hr
        simp [List.filterMap_cons, if_pos hlt, hr, hr']
      · unfold selectSupported
        rw [if_neg hlt, ih hrest]
        simp [List.filterMap_cons, if_neg hlt]

theorem c9_filter_bounds_nonneg_witness :
    selectSupported fiveDocs [1, 3, 99] =
      some ([1, 3, 99].filterMap (fun i =>
        if i < (fiveDocs.length : Int) then fiveDocs.get? i.toNat else none)) ∧
    selectSupported fiveDocs [1, 3, 99] = some [mkDoc "d1", mkDoc "d3"] :=
  ⟨c9_filter_bounds_nonneg fiveDocs [1, 3, 99] (by decide), by decide⟩

/-- C10: a negative index `i` with `-n ≤ i < 0` passes the defensive bound
check (`int(i) < n`) and selects the element at position `n + i` instead of
being dropped. -/
theorem c10_negative_index_selects_from_end (results : List RetrievalResult) (i : Int)
    (h1 : -(results.length : Int) ≤ i) (h2 : i < 0) :
    i < (results.length : Int) ∧
    (results.get? (i + (results.length : Int)).toNat).isSome = true ∧
    selectSupported results [i] =
      (results.get? (i + (results.length : Int)).toNat).map (fun r => [r]) := by
  have hnat : (i + (results.length : Int)).toNat < results.length := by omega
  obtain ⟨r, hr⟩ : ∃ r, results.get? (i + (results.length : Int)).toNat = some r := by
    rw [List.get?_eq_get hnat]; exact ⟨_, rfl⟩
  have hpy : pyIndex results i = some r := by
    rw [pyIndex_neg results i h1 h2, hr]
  refine ⟨by omega, by rw [hr]; rfl, ?_⟩
  unfold selectSupported
  rw [if_pos (by omega : i < (results.length : Int)), hpy, hr]
  rfl

theorem c10_negative_index_selects_from_end_witness :
    (-1 : Int) < (fiveDocs.length : Int) ∧
    (fiveDocs.get? ((-1 + (fiveDocs.length : Int)).toNat)).isSome = true ∧
    selectSupported fiveDocs [(-1 : Int)] =
      (fiveDocs.get? ((-1 + (fiveDocs.length : Int)).toNat)).map (fun r => [r]) :=
  c10_negative_index_selects_from_end fiveDocs (-1) (by decide) (by decide)

/-! ### C3: sentinel short-circuit of the evidence filter -/

/-- Environment whose chat endpoint replies an empty Python list literal. -/
def envF : Env := { baseEnv with chatFn := fun _ _ => { content := "[]", total_tokens := 7 } }

/-- C3 counterexample: the intermediate answer
"Note: No relevant information found here" is NOT equal to the sentinel,
yet `_get_supported_docs` issues no generation call and returns (∅, 0),
because the code tests substring containment (Python `in`), not equality. -/
theorem c3_sentinel_counterexample :
    (get_supported_docs envF 0 [] "q" "Note: No relevant information found here").events = [] ∧
    (get_supported_docs envF 0 [] "q" "Note: No relevant information found here").res =
      some ([], 0) ∧
    "Note: No relevant information found here" ≠ noRelevantInfo :=
  ⟨rfl, rfl, by decide⟩

/-- C3 (amended): `_get_supported_docs` returns (∅, 0) without issuing any
generation call exactly when the intermediate answer CONTAINS the fixed
"No relevant information found" sentinel as a substring; whenever the
sentinel does not occur in the answer, exactly one generation call is
issued. -/
theorem c3_sentinel_substring_gate (env : Env) (callIdx : Nat)
    (results : List RetrievalResult) (query answer : String) :
    (strContains answer noRelevantInfo = true →
      get_supported_docs env callIdx results query answer =
        { res := some ([], 0), events := [], next := callIdx }) ∧
    (strContains answer noRelevantInfo = false →
      countChat (get_supported_docs env callIdx results query answer).events = 1 ∧
      (get_supported_docs env callIdx results query answer).next = callIdx + 1) := by
  constructor
  · intro h
    unfold get_supported_docs
    rw [if_pos h]
  · intro h
    unfold get_supported_docs
    rw [if_neg (by simp [h])]
    simp [countChat, List.countP_cons, List.countP_nil]

theorem c3_sentinel_substring_gate_witness :
    get_supported_docs envF 0 [] "q" noRelevantInfo =
      { res := some ([], 0), events := [], next := 0 } ∧
    countChat (get_supported_docs envF 0 [] "q" "an answer").events = 1 :=
  ⟨(c3_sentinel_substring_gate envF 0 [] "q" noRelevantInfo).1 (by decide),
   ((c3_sentinel_substring_gate envF 0 [] "q" "an answer").2 (by decide)).1⟩

/-! ### C7: strict-match convergence check -/

/-- Environment whose chat endpoint replies "Yes, likely". -/
def envYL : Env :=
  { baseEnv with chatFn := fun _ _ => { content := "Yes, likely", total_tokens := 5 } }

/-- Environment whose chat endpoint replies "  YES  ". -/
def envYes : Env :=
  { baseEnv with chatFn := fun _ _ => { content := "  YES  ", total_tokens := 5 } }

/-- C7: for every non-empty record list, `_check_has_enough_info` returns
true exactly when the (cleaned) generation reply, after trimming whitespace
and case-folding, equals "yes"; and the reported cost is that call's token
usage. -/
theorem c7_strict_yes_convergence (env : Env) (callIdx : Nat) (query : String)
    (contexts : List String) (h : contexts ≠ []) :
    ((check_has_enough_info env callIdx query contexts).hasEnough = true ↔
      pyLower (pyStrip (remove_think
        (env.chatFn callIdx (reflectPrompt query contexts)).content)) = "yes") ∧
    (check_has_enough_info env callIdx query contexts).tokens =
      (env.chatFn callIdx (reflectPrompt query contexts)).total_tokens := by
  cases contexts with
  | nil => exact absurd rfl h
  | cons c rest => exact ⟨beq_iff_eq, rfl⟩

theorem c7_strict_yes_convergence_witness :
    (check_has_enough_info envYL 0 "q" ["r"]).hasEnough = false ∧
    (check_has_enough_info envYes 0 "q" ["r"]).hasEnough = true := by
  constructor
  · have hiff := (c7_strict_yes_convergence envYL 0 "q" ["r"] (by decide)).1
    have hno : ¬ (pyLower (pyStrip (remove_think
        (envYL.chatFn 0 (reflectPrompt "q" ["r"])).content)) = "yes") := by decide
    cases hE : (check_has_enough_info envYL 0 "q" ["r"]).hasEnough
    · rfl
    · exact absurd (hiff.mp hE) hno
  · exact (c7_strict_yes_convergence envYes 0 "q" ["r"] (by decide)).1.mpr (by decide)

/-! ### C1: embedding calls of the fan-out search -/

lemma searchLoop_embed_count (env : Env) (query : String) :
    ∀ selected : List String, countEmbed (searchLoop env query selected).2 = selected.length := by
  intro selected
  induction selected with
  | nil => rfl
  | cons c rest ih =>
      simp only [searchLoop, countEmbed, List.countP_cons] at ih ⊢
      simp [ih]

lemma searchLoop_search_vector (env : Env) (query : String) :
    ∀ (selected : List String) (c : String) (v : List Int) (qt : String),
      Event.searchD c v qt ∈ (searchLoop env query selected).2 →
      v = env.embedFn query ∧ qt = query := by
  intro selected
  induction selected with
  | nil => intro c v qt h; simp [searchLoop] at h
  | cons col rest ih =>
      intro c v qt h
      simp only [searchLoop, List.mem_cons] at h
      rcases h with h | h | h
      · cases h
      · have := Event.searchD.inj h
        exact ⟨this.2.1, this.2.2⟩
      · exact ih c v qt h

/-- C1 counterexample: with two selected collections, the search core of
`_retrieve_and_answer` invokes `embed_query` twice (once per collection),
refuting "the embedding capability is invoked exactly once". -/
theorem c1_embed_once_counterexample :
    countEmbed (retrieve_and_answer_core envTwo cfgRoute 0 "sq" ["a", "b"]).events = 2 ∧
    ¬ countEmbed (retrieve_and_answer_core envTwo cfgRoute 0 "sq" ["a", "b"]).events = 1 := by
  have h2 : countEmbed (retrieve_and_answer_core envTwo cfgRoute 0 "sq" ["a", "b"]).events = 2 :=
    rfl
  exact ⟨h2, by omega⟩

/-- C1 (amended): the search core of `_retrieve_and_answer` invokes
`embed_query` once PER selected collection (`n` times for `n` collections,
not exactly once); every search call still uses the vector
`embed_query(subQuery)` for the sub-query, recomputed each time. -/
theorem c1_embed_per_collection (env : Env) (cfg : Config) (callIdx : Nat)
    (query : String) (selected : List String) :
    countEmbed (retrieve_and_answer_core env cfg callIdx query selected).events =
      selected.length ∧
    ∀ c v qt,
      Event.searchD c v qt ∈ (retrieve_and_answer_core env cfg callIdx query selected).events →
      v = env.embedFn query ∧ qt = query := by
  constructor
  · unfold retrieve_and_answer_core
    simp only [countEmbed, List.countP_append, List.countP_cons, List.countP_nil]
    have := searchLoop_embed_count env query selected
    simp only [countEmbed] at this
    simp [this]
  · intro c v qt h
    unfold retrieve_and_answer_core at h
    simp only [List.mem_append, List.mem_cons, List.not_mem_nil, or_false] at h
    rcases h with h | h
    · exact searchLoop_search_vector env query selected c v qt h
    · cases h

theorem c1_embed_per_collection_witness :
    countEmbed (retrieve_and_answer_core envTwo cfgRoute 0 "sq" ["a", "b"]).events =
      (["a", "b"] : List String).length :=
  (c1_embed_per_collection envTwo cfgRoute 0 "sq" ["a", "b"]).1

/-! ### C4: zero-collection degradation -/

/-- C4 counterexample: with zero registered collections the retriever does
return an empty evidence list, but its intermediate answer is whatever the
generation capability replies (here "42"), not the "no relevant
information" sentinel: the code does not force the sentinel. -/
theorem c4_zero_collections_counterexample :
    (retrieve_and_answer envZero cfgRoute 0 "q").results = [] ∧
    (retrieve_and_answer envZero cfgRoute 0 "q").answer = "42" ∧
    strContains "42" noRelevantInfo = false ∧
    "42" ≠ noRelevantInfo :=
  ⟨rfl, rfl, by decide, by decide⟩

/-- C4 (amended): with zero registered collections, `CollectionRouter.invoke`
returns the empty selection with cost 0 and no generation call, and
`_retrieve_and_answer` then returns an empty evidence list whose
intermediate answer is the generation reply to the intermediate-answer
prompt over the empty document list (one generation call is still issued;
the sentinel is only what the prompt asks the model to reply, not enforced). -/
theorem c4_zero_collections_degradation (env : Env) (cfg : Config) (callIdx : Nat)
    (query : String) (h : env.collections = []) (hr : cfg.route_collection = true) :
    router_invoke env callIdx query =
      { selected := [], tokens := 0, events := [Event.listC], next := callIdx } ∧
    (retrieve_and_answer env cfg callIdx query).results = [] ∧
    (retrieve_and_answer env cfg callIdx query).answer =
      remove_think (env.chatFn callIdx
        (intermediatePrompt (format_retrieved_results cfg []) query)).content ∧
    countChat (retrieve_and_answer env cfg callIdx query).events = 1 := by
  have hrouter : router_invoke env callIdx query =
      { selected := [], tokens := 0, events := [Event.listC], next := callIdx } := by
    unfold router_invoke; rw [h]
  refine ⟨hrouter, ?_, ?_, ?_⟩ <;>
    simp [retrieve_and_answer, hr, hrouter, retrieve_and_answer_core, searchLoop,
      deduplicate_results, dedupGo, countChat, List.countP_append, List.countP_cons,
      List.countP_nil]

theorem c4_zero_collections_degradation_witness :
    router_invoke envZero 0 "q" =
      { selected := [], tokens := 0, events := [Event.listC], next := 0 } ∧
    (retrieve_and_answer envZero cfgRoute 0 "q").results = [] ∧
    countChat (retrieve_and_answer envZero cfgRoute 0 "q").events = 1 :=
  ⟨(c4_zero_collections_degradation envZero cfgRoute 0 "q" rfl rfl).1,
   (c4_zero_collections_degradation envZero cfgRoute 0 "q" rfl rfl).2.1,
   (c4_zero_collections_degradation envZero cfgRoute 0 "q" rfl rfl).2.2.2⟩

/-! ### C2: deduplication of the accumulated evidence pool -/

lemma dedupGo_keys_avoid_seen :
    ∀ (l : List RetrievalResult) (seen : List (String × String)) (k : String × String),
      k ∈ (dedupGo seen l).map rrKey → k ∉ seen := by
  intro l
  induction l with
  | nil => intro seen k h; simp [dedupGo] at h
  | cons r rest ih =>
      intro seen k h
      simp only [dedupGo] at h
      by_cases hs : rrKey r ∈ seen
      · rw [if_pos hs] at h
        exact ih seen k h
      · rw [if_neg hs] at h
        simp only [List.map_cons, List.mem_cons] at h
        rcases h with h | h
        · subst h; exact hs
        · intro hk
          exact ih (rrKey r :: seen) k h (List.mem_cons_of_mem _ hk)

lemma dedupGo_keys_nodup :
    ∀ (l : List RetrievalResult) (seen : List (String × String)),
      ((dedupGo seen l).map rrKey).Nodup := by
  intro l
  induction l with
  | nil => intro seen; simp [dedupGo]
  | cons r rest ih =>
      intro seen
      simp only [dedupGo]
      by_cases hs : rrKey r ∈ seen
      · rw [if_pos hs]; exact ih seen
      · rw [if_neg hs]
        simp only [List.map_cons, List.nodup_cons]
        exact ⟨fun hmem =>
          dedupGo_keys_avoid_seen rest (rrKey r :: seen) (rrKey r) hmem
            (List.mem_cons_self _ _),
          ih (rrKey r :: seen)⟩

lemma deduplicate_results_keys_nodup (l : List RetrievalResult) :
    ((deduplicate_results l).map rrKey).Nodup :=
  dedupGo_keys_nodup l []

/-- A document returned by every search in the duplicate scenario. -/
def docD : RetrievalResult :=
  { text := "t", embedding := [], reference := "ref", score := 0, metadata := [] }

/-- Scenario with one collection whose search always returns `docD` and
whose filter step always keeps document 0, so that two iterations each
merge the same document into the pool. -/
def envDup : Env :=
  { baseEnv with
    collections := [⟨"c", "cd"⟩],
    chatFn := fun _ _ => ⟨"ans", 1⟩,
    searchFn := fun _ _ _ => [docD],
    literalEvalInts := fun _ => [0] }

/-- C2 counterexample: after two executed iterations that each merged the
same supported document, the accumulated pool is `[docD, docD]` — two
entries with the same (reference, text) key — because no dedup pass runs
inside the loop; the claim that the pool is re-deduplicated at the end of
every iteration is false. -/
theorem c2_mid_loop_duplicates_counterexample :
    (retrieveRun envDup cfgRoute "Q" 2).iters = 2 ∧
    (retrieveRun envDup cfgRoute "Q" 2).pool = [docD, docD] ∧
    ¬ ((retrieveRun envDup cfgRoute "Q" 2).pool.map rrKey).Nodup := by
  refine ⟨rfl, rfl, fun h => ?_⟩
  rw [(rfl : (retrieveRun envDup cfgRoute "Q" 2).pool = [docD, docD])] at h
  exact (by decide : ¬ (List.map rrKey [docD, docD]).Nodup) h

/-- C2 (amended): inside the loop the supported evidence of each iteration
is merged into the pool WITHOUT re-deduplication (the pool may hold
duplicate keys at iteration boundaries); the global dedup pass runs once
after the loop, so the evidence list RETURNED by `retrieve` has no two
entries with the same (reference, text) key. -/
theorem c2_returned_pool_dedup (env : Env) (cfg : Config) (query : String) (maxIter : Nat)
    (res : List RetrievalResult) (tok : Nat) (ctxs : List String)
    (h : retrieve env cfg query maxIter = some (res, tok, ctxs)) :
    (res.map rrKey).Nodup := by
  simp only [retrieve] at h
  by_cases hf : (retrieveRun env cfg query maxIter).failed = true
  · rw [if_pos hf] at h; cases h
  · rw [if_neg hf] at h
    have h' := Option.some.inj h
    have hres : deduplicate_results (retrieveRun env cfg query maxIter).pool = res :=
      congrArg Prod.fst h'
    rw [← hres]
    exact deduplicate_results_keys_nodup _

theorem c2_returned_pool_dedup_witness :
    (([] : List RetrievalResult).map rrKey).Nodup :=
  c2_returned_pool_dedup envZero cfgRoute "q" 1 [] 6 [mkRecord 1 "42" "42"] rfl

/-! ### Counting lemmas for the retrieve loop -/

lemma countList_append (a b : List Event) :
    countList (a ++ b) = countList a + countList b := by
  simp [countList, List.countP_append]

lemma router_invoke_countList (env : Env) (callIdx : Nat) (query : String) :
    countList (router_invoke env callIdx query).events = 1 := by
  unfold router_invoke
  split <;> simp [countList, List.countP_cons, List.countP_nil]

lemma searchLoop_countList (env : Env) (query : String) :
    ∀ selected : List String, countList (searchLoop env query selected).2 = 0 := by
  intro selected
  induction selected with
  | nil => rfl
  | cons c rest ih =>
      simp only [searchLoop, countList, List.countP_cons] at ih ⊢
      simp [ih]

lemma retrieve_and_answer_core_countList (env : Env) (cfg : Config) (callIdx : Nat)
    (query : String) (selected : List String) :
    countList (retrieve_and_answer_core env cfg callIdx query selected).events = 0 := by
  unfold retrieve_and_answer_core
  simp only [countList, List.countP_append, List.countP_cons, List.countP_nil]
  have := searchLoop_countList env query selected
  simp only [countList] at this
  simp [this]

lemma countList_single_chat (p : String) : countList [Event.chatC p] = 0 := rfl

lemma retrieve_and_answer_countList (env : Env) (cfg : Config) (callIdx : Nat)
    (query : String) :
    countList (retrieve_and_answer env cfg callIdx query).events =
      if cfg.route_collection then 1 else 0 := by
  unfold retrieve_and_answer
  by_cases hr : cfg.route_collection
  · simp [hr, countList_append, router_invoke_countList,
      retrieve_and_answer_core_countList]
  · simp [hr, countList_append, retrieve_and_answer_core_countList]

lemma get_supported_docs_countList (env : Env) (callIdx : Nat)
    (results : List RetrievalResult) (query answer : String) :
    countList (get_supported_docs env callIdx results query answer).events = 0 := by
  unfold get_supported_docs
  split <;> simp [countList, List.countP_cons, List.countP_nil]

lemma check_has_enough_info_countList (env : Env) (callIdx : Nat) (query : String)
    (contexts : List String) :
    countList (check_has_enough_info env callIdx query contexts).events = 0 := by
  unfold check_has_enough_info
  split <;> simp [countList, List.countP_cons, List.countP_nil]

/-- Case analysis of one loop iteration: either the filter step raised (the
state is marked failed, nothing else of interest changed), or the iteration
completed (one more iteration counted, one more record appended); in both
cases the number of `list_collections` enumerations grows by exactly one
when routing is enabled and by zero otherwise. -/
lemma iterBody_cases (env : Env) (cfg : Config) (query : String) (st : LoopState) :
    ((iterBody env cfg query st).failed = true ∧
     (iterBody env cfg query st).iters = st.iters ∧
     (iterBody env cfg query st).contexts = st.contexts ∧
     countList (iterBody env cfg query st).events =
       countList st.events + (if cfg.route_collection then 1 else 0)) ∨
    ((iterBody env cfg query st).failed = false ∧
     (iterBody env cfg query st).iters = st.iters + 1 ∧
     (∃ q a, (iterBody env cfg query st).contexts =
        st.contexts ++ [mkRecord (st.contexts.length + 1) q a]) ∧
     countList (iterBody env cfg query st).events =
       countList st.events + (if cfg.route_collection then 1 else 0)) := by
  simp only [iterBody]
  split
  · left
    refine ⟨rfl, rfl, rfl, ?_⟩
    simp only [countList_append, get_supported_docs_countList,
      retrieve_and_answer_countList, countList_single_chat]
    omega
  · right
    by_cases he : cfg.early_stopping
    · rw [if_pos he]
      refine ⟨rfl, rfl, ⟨_, _, rfl⟩, ?_⟩
      simp only [countList_append, get_supported_docs_countList,
        retrieve_and_answer_countList, check_has_enough_info_countList,
        countList_single_chat]
      omega
    · rw [if_neg he]
      refine ⟨rfl, rfl, ⟨_, _, rfl⟩, ?_⟩
      simp only [countList_append, get_supported_docs_countList,
        retrieve_and_answer_countList, countList_single_chat]
      omega

lemma retrieveAux_of_failed (env : Env) (cfg : Config) (query : String) :
    ∀ (fuel : Nat) (st : LoopState), st.failed = true →
      retrieveAux env cfg query fuel st = st := by
  intro fuel
  induction fuel with
  | zero => intro st h; rfl
  | succ n ih =>
      intro st h
      unfold retrieveAux
      rw [h]
      simp

lemma retrieveAux_iters_le (env : Env) (cfg : Config) (query : String) :
    ∀ (fuel : Nat) (st : LoopState),
      (retrieveAux env cfg query fuel st).iters ≤ st.iters + fuel := by
  intro fuel
  induction fuel with
  | zero => intro st; exact Nat.le_refl _
  | succ n ih =>
      intro st
      unfold retrieveAux
      by_cases hg : (st.failed || st.stopped) = true
      · rw [if_pos hg]; omega
      · rw [if_neg hg]
        have h1 := ih (iterBody env cfg query st)
        rcases iterBody_cases env cfg query st with ⟨-, hi, -, -⟩ | ⟨-, hi, -, -⟩ <;> omega

/-! ### C5: one collection enumeration per iteration -/

lemma retrieveAux_countList_route (env : Env) (cfg : Config) (query : String)
    (hr : cfg.route_collection = true) :
    ∀ (fuel : Nat) (st : LoopState),
      (retrieveAux env cfg query fuel st).failed = false →
      countList (retrieveAux env cfg query fuel st).events + st.iters =
        countList st.events + (retrieveAux env cfg query fuel st).iters := by
  intro fuel
  induction fuel with
  | zero => intro st _; rfl
  | succ n ih =>
      intro st h1
      unfold retrieveAux at h1 ⊢
      by_cases hg : (st.failed || st.stopped) = true
      · rw [if_pos hg] at h1 ⊢
      · rw [if_neg hg] at h1 ⊢
        rcases iterBody_cases env cfg query st with ⟨hfail, -, -, -⟩ | ⟨-, hi, -, hcount⟩
        · rw [retrieveAux_of_failed env cfg query n _ hfail] at h1
          rw [hfail] at h1
          exact Bool.noConfusion h1
        · have hrec := ih (iterBody env cfg query st) h1
          rw [hcount, hr, if_pos rfl] at hrec
          omega

/-- C5 counterexample: a retrieve operation that executes two iterations
enumerates the collection information twice (once per iteration), refuting
"enumerated exactly once regardless of how many iterations the operation
executes". -/
theorem c5_single_enumeration_counterexample :
    (retrieveRun envZero cfgRoute "q" 2).iters = 2 ∧
    countList (retrieveRun envZero cfgRoute "q" 2).events = 2 ∧
    ¬ countList (retrieveRun envZero cfgRoute "q" 2).events = 1 := by
  refine ⟨rfl, rfl, ?_⟩
  have h : countList (retrieveRun envZero cfgRoute "q" 2).events = 2 := rfl
  omega

/-- C5 (amended): with routing enabled, one retrieve operation enumerates
the collection information from the vector store once PER ITERATION (the
router re-enumerates inside `invoke`): a successful run that executed `k`
iterations performs exactly `k` enumerations, so "exactly once" holds only
for single-iteration operations.  (One further enumeration happens at agent
construction, outside `retrieve`.) -/
theorem c5_enumeration_per_iteration (env : Env) (cfg : Config) (query : String)
    (maxIter : Nat) (hr : cfg.route_collection = true)
    (hf : (retrieveRun env cfg query maxIter).failed = false) :
    countList (retrieveRun env cfg query maxIter).events =
      (retrieveRun env cfg query maxIter).iters := by
  have h := retrieveAux_countList_route env cfg query hr maxIter initState hf
  simpa [initState, countList] using h

theorem c5_enumeration_per_iteration_witness :
    countList (retrieveRun envZero cfgRoute "q" 2).events =
      (retrieveRun envZero cfgRoute "q" 2).iters :=
  c5_enumeration_per_iteration envZero cfgRoute "q" 2 rfl rfl

/-! ### C8: record growth -/

/-- The record-list invariant of the loop state: the number of records
equals the number of executed iterations, and the `j`-th record carries the
1-based index `j + 1` (hence the indices are `1, 2, …`, strictly
increasing). -/
def recordsWF (st : LoopState) : Prop :=
  st.contexts.length = st.iters ∧
  ∀ j, j < st.contexts.length →
    ∃ q a, st.contexts.get? j = some (mkRecord (j + 1) q a)

lemma iterBody_recordsWF (env : Env) (cfg : Config) (query : String) (st : LoopState)
    (h : recordsWF st) : recordsWF (iterBody env cfg query st) := by
  rcases iterBody_cases env cfg query st with ⟨-, hi, hc, -⟩ | ⟨-, hi, ⟨q, a, hc⟩, -⟩
  · rw [recordsWF, hi, hc]; exact h
  · constructor
    · rw [hi, hc, List.length_append, h.1]
      rfl
    · intro j hj
      rw [hc] at hj ⊢
      simp only [List.length_append, List.length_cons, List.length_nil] at hj
      by_cases hlt : j < st.contexts.length
      · rw [List.get?_append hlt]
        exact h.2 j hlt
      · have hj' : j = st.contexts.length := by omega
        subst hj'
        rw [List.get?_concat_length]
        exact ⟨q, a, rfl⟩

lemma retrieveAux_recordsWF (env : Env) (cfg : Config) (query : String) :
    ∀ (fuel : Nat) (st : LoopState), recordsWF st →
      recordsWF (retrieveAux env cfg query fuel st) := by
  intro fuel
  induction fuel with
  | zero => intro st h; exact h
  | succ n ih =>
      intro st h
      unfold retrieveAux
      by_cases hg : (st.failed || st.stopped) = true
      · rw [if_pos hg]; exact h
      · rw [if_neg hg]
        exact ih _ (iterBody_recordsWF env cfg query st h)

/-- C8: a retrieve operation that executed `k` iterations and returned
produces a record list (`intermediate_context`) of length exactly `k`; the
`j`-th record carries index `j + 1` (so the indices `1, …, k` appear in
iteration order, strictly increasing), and `k` never exceeds the iteration
bound passed to the operation (the configured or overridden maximum). -/
theorem c8_record_growth (env : Env) (cfg : Config) (query : String) (maxIter : Nat)
    (res : List RetrievalResult) (tok : Nat) (ctxs : List String)
    (h : retrieve env cfg query maxIter = some (res, tok, ctxs)) :
    ctxs.length = (retrieveRun env cfg query maxIter).iters ∧
    (retrieveRun env cfg query maxIter).iters ≤ maxIter ∧
    ∀ j, j < ctxs.length → ∃ q a, ctxs.get? j = some (mkRecord (j + 1) q a) := by
  have hctxs : ctxs = (retrieveRun env cfg query maxIter).contexts := by
    simp only [retrieve] at h
    by_cases hf : (retrieveRun env cfg query maxIter).failed = true
    · rw [if_pos hf] at h; cases h
    · rw [if_neg hf] at h
      have h' := Option.some.inj h
      exact (congrArg (fun t => t.2.2) h').symm
  have hwf : recordsWF (retrieveRun env cfg query maxIter) :=
    retrieveAux_recordsWF env cfg query maxIter initState
      ⟨rfl, fun j hj => absurd hj (by simp [initState])⟩
  have hle : (retrieveRun env cfg query maxIter).iters ≤ initState.iters + maxIter :=
    retrieveAux_iters_le env cfg query maxIter initState
  subst hctxs
  exact ⟨hwf.1, by simpa [initState] using hle, hwf.2⟩

theorem c8_record_growth_witness :
    ([mkRecord 1 "42" "42"].length = (retrieveRun envZero cfgRoute "q" 1).iters) ∧
    (retrieveRun envZero cfgRoute "q" 1).iters ≤ 1 :=
  ⟨(c8_record_growth envZero cfgRoute "q" 1 [] 6 [mkRecord 1 "42" "42"] rfl).1,
   (c8_record_growth envZero cfgRoute "q" 1 [] 6 [mkRecord 1 "42" "42"] rfl).2.1⟩
